import Mathlib

/-!
Shallow embedding of the catalog core of the Phone Store Maracaibo static
storefront (product data, filter pipeline, lookup/relation engine and badge
mapping), translated from `js/products.data.js`, `js/catalogo.js` and
`js/producto.js`, together with proofs of the specified properties.
-/

namespace PSM

/-- Characters treated as whitespace by the JS string `trim` (space, tab,
line breaks, vertical tab, form feed, no-break space). -/
def jsWhitespaceChar (c : Char) : Bool :=
  c == ' ' || c == '\t' || c == '\n' || c == '\r' ||
    c == '\x0b' || c == '\x0c' || c == ' '

/-- JS `String.prototype.trim`: strips whitespace from both ends. -/
def jsTrim (s : String) : String :=
  ⟨((s.data.dropWhile jsWhitespaceChar).reverse.dropWhile jsWhitespaceChar).reverse⟩

/-- Lowercases one character the way JS `toLowerCase` does on the alphabets
appearing in the catalog data (ASCII letters and Spanish accented capitals);
every other character is unchanged. -/
def jsLowerChar (c : Char) : Char :=
  if 'A' ≤ c ∧ c ≤ 'Z' then Char.ofNat (c.toNat + 32)
  else if c == 'Á' then 'á'
  else if c == 'É' then 'é'
  else if c == 'Í' then 'í'
  else if c == 'Ó' then 'ó'
  else if c == 'Ú' then 'ú'
  else if c == 'Ñ' then 'ñ'
  else if c == 'Ü' then 'ü'
  else c

/-- JS `String.prototype.toLowerCase` on the alphabets used here. -/
def jsToLower (s : String) : String :=
  ⟨s.data.map jsLowerChar⟩

/-- Substring occurrence test on character lists (needle against haystack). -/
def hasSubstr (needle : List Char) : List Char → Bool
  | [] => needle.isEmpty
  | c :: rest => needle.isPrefixOf (c :: rest) || hasSubstr needle rest

/-- JS `s.includes(sub)`. -/
def jsIncludes (s sub : String) : Bool :=
  hasSubstr sub.data s.data

/-- Value of a single digit character, up to base 16. -/
def digitVal (c : Char) : Option Nat :=
  if '0' ≤ c ∧ c ≤ '9' then some (c.toNat - '0'.toNat)
  else if 'a' ≤ c ∧ c ≤ 'f' then some (c.toNat - 'a'.toNat + 10)
  else if 'A' ≤ c ∧ c ≤ 'F' then some (c.toNat - 'A'.toNat + 10)
  else none

/-- Accumulating digit-list evaluation in the given base; `none` when a
character is not a digit of that base. -/
def radixValAux (base : Nat) (acc : Nat) : List Char → Option Nat
  | [] => some acc
  | c :: rest =>
    match digitVal c with
    | some d => if d < base then radixValAux base (acc * base + d) rest else none
    | none => none

/-- Numeric value of a digit list in the given base; `none` when the list is
empty or holds a character that is not a digit of that base. -/
def radixVal (base : Nat) (l : List Char) : Option Nat :=
  if l.isEmpty then none else radixValAux base 0 l

/-- Exponent part of a decimal literal: optional sign followed by digits. -/
def expVal : List Char → Option Int
  | '+' :: rest => (radixVal 10 rest).map Int.ofNat
  | '-' :: rest => (radixVal 10 rest).map (fun n => -(n : Int))
  | l => (radixVal 10 l).map Int.ofNat

/-- Value of an unsigned decimal literal `digits[.digits][e|E exponent]` when
that value is an integer; `none` when the literal is malformed (JS `NaN`) or
its value is not an integer (a JS double that strict equality against an
integer product series can never match). Rounding of JS doubles to the
nearest representable value is not modelled: values are kept exact here. -/
def decValue (l : List Char) : Option Int :=
  let ip := l.takeWhile Char.isDigit
  let r1 := l.dropWhile Char.isDigit
  let fp :=
    match r1 with
    | '.' :: rest => rest.takeWhile Char.isDigit
    | _ => []
  let r2 :=
    match r1 with
    | '.' :: rest => rest.dropWhile Char.isDigit
    | _ => r1
  if ip.isEmpty && fp.isEmpty then none
  else
    let e : Option Int :=
      match r2 with
      | [] => some 0
      | 'e' :: rest => expVal rest
      | 'E' :: rest => expVal rest
      | _ => none
    match e, radixValAux 10 0 (ip ++ fp) with
    | none, _ => none
    | _, none => none
    | some e, some n =>
      let shift : Int := e - fp.length
      if 0 ≤ shift then some (n * 10 ^ shift.toNat)
      else if n % 10 ^ (-shift).toNat == 0 then some ((n : Int) / 10 ^ (-shift).toNat)
      else none

/-- JS `Number(string)` coercion, modelled on its integer results: a string
denoting an integral number maps to `some` of that integer (decimal with
optional sign, fraction and exponent; `0x`, `0o`, `0b` radix literals; the
empty or all-whitespace string maps to 0); every other string maps to
`none`, which stands for `NaN` or for a non-integral double — strict
equality against an integer product series rejects either one. -/
def jsNumber (s : String) : Option Int :=
  match (jsTrim s).data with
  | [] => some 0
  | '+' :: rest => decValue rest
  | '-' :: rest => (decValue rest).map (fun n => -n)
  | '0' :: 'x' :: rest => (radixVal 16 rest).map Int.ofNat
  | '0' :: 'X' :: rest => (radixVal 16 rest).map Int.ofNat
  | '0' :: 'o' :: rest => (radixVal 8 rest).map Int.ofNat
  | '0' :: 'O' :: rest => (radixVal 8 rest).map Int.ofNat
  | '0' :: 'b' :: rest => (radixVal 2 rest).map Int.ofNat
  | '0' :: 'B' :: rest => (radixVal 2 rest).map Int.ofNat
  | l => decValue l

/-- Product record, from the `@typedef` in `products.data.js`: `series` is a
number for iPhones and `null` (here `none`) otherwise. -/
structure Product where
  id : String
  name : String
  category : String
  series : Option Int
  condition : String
  specs : List String
  gallery : List String
  description : String
  waMessage : String
deriving DecidableEq

/-- Seeded product `iph-17-pro-max` (products.data.js). -/
def iph17proMax : Product :=
  ⟨"iph-17-pro-max", "iPhone 17 Pro Max", "iphone", some 17, "nuevo",
    ["A19 Pro", "Titanio", "256GB"],
    ["img/phone/product/iphone_17/17_pro_max_png/17promax.png",
      "img/phone/product/iphone_17/iphone-17-series.webp"],
    "El iPhone más avanzado de la historia. El chip A19 Pro establece nuevos estándares de rendimiento, con una cámara Pro de 48 MP con zoom óptico 5x y pantalla Super Retina XDR ProMotion 120Hz en titanio grado aeroespacial.",
    "Hola, me interesa el iPhone 17 Pro Max"⟩

/-- Seeded product `iph-17` (products.data.js). -/
def iph17 : Product :=
  ⟨"iph-17", "iPhone 17", "iphone", some 17, "nuevo",
    ["A19", "6.1\"", "128GB"],
    ["img/phone/product/iphone_17/17_plus/iphone-17.png",
      "img/phone/product/iphone_17/iphone-17-series.webp"],
    "Toda la potencia del A19 en el formato estándar. Dynamic Island, carga rápida y la misma durabilidad de siempre en un diseño renovado.",
    "Hola, me interesa el iPhone 17"⟩

/-- Seeded product `iph-16-pro-max` (products.data.js). -/
def iph16proMax : Product :=
  ⟨"iph-16-pro-max", "iPhone 16 Pro Max", "iphone", some 16, "nuevo",
    ["A18 Pro", "Titanio", "256GB"],
    ["img/phone/product/iphone_16/16_pro_max/16_pro_max.png",
      "img/phone/product/iphone_16/0021697_iphone-16-16-plus-series.jpeg"],
    "Pantalla de 6.9\" ProMotion 120Hz, chip A18 Pro y sistema de cámara Pro más avanzado de Apple hasta la fecha. Con Action Button y botón de Control de Cámara. Cuerpo de titanio grado aeroespacial.",
    "Hola, me interesa el iPhone 16 Pro Max"⟩

/-- Seeded product `iph-16` (products.data.js). -/
def iph16 : Product :=
  ⟨"iph-16", "iPhone 16 Negro", "iphone", some 16, "nuevo",
    ["A18", "6.1\"", "128GB", "Negro Titanio"],
    ["img/phone/product/iphone_16/png/iphone_16_black_titanium.png",
      "img/phone/product/iphone_16/iphone-16-finish-select-202409-6-1inch-black.jfif"],
    "El iPhone 16 en Negro Titanio. Chip A18 con Apple Intelligence, cámara Fusion de 48 MP y Dynamic Island. USB-C con transferencia a 10 Gb/s.",
    "Hola, me interesa el iPhone 16 en Negro Titanio"⟩

/-- Seeded product `iph-16-pink` (products.data.js). -/
def iph16pink : Product :=
  ⟨"iph-16-pink", "iPhone 16 Rosa", "iphone", some 16, "nuevo",
    ["A18", "6.1\"", "128GB", "Rosa"],
    ["img/phone/product/iphone_16/png/iphone_16_pink.png",
      "img/phone/product/iphone_16/iPhone-16-Teal-1.png"],
    "El iPhone 16 en acabado Rosa. Todo el rendimiento del A18 con Apple Intelligence en el color más solicitado de la temporada.",
    "Hola, me interesa el iPhone 16 en color Rosa"⟩

/-- Seeded product `iph-16-white` (products.data.js). -/
def iph16white : Product :=
  ⟨"iph-16-white", "iPhone 16 Blanco", "iphone", some 16, "nuevo",
    ["A18", "6.1\"", "128GB", "Blanco"],
    ["img/phone/product/iphone_16/png/iphone_16_white.png",
      "img/phone/product/iphone_16/0021697_iphone-16-16-plus-series.jpeg"],
    "El iPhone 16 en Blanco. Diseño atemporal con chip A18 y el sistema de cámara más inteligente de la línea estándar.",
    "Hola, me interesa el iPhone 16 en color Blanco"⟩

/-- Seeded product `iph-15-pro-max` (products.data.js). -/
def iph15proMax : Product :=
  ⟨"iph-15-pro-max", "iPhone 15 Pro Max", "iphone", some 15, "nuevo",
    ["A17 Pro", "Titanio", "256GB"],
    ["img/phone/product/iphone_15/15_pro_max/15_pro_max.png",
      "img/phone/iphone-15-pro-max-blue-titanium-256gb-back_4.jpg"],
    "El primer iPhone con cuerpo de titanio grado aeroespacial. Chip A17 Pro con GPU de 6 núcleos, zoom óptico 5x y Action Button personalizable. USB-C con Thunderbolt 3.",
    "Hola, me interesa el iPhone 15 Pro Max"⟩

/-- Seeded product `iph-15-black` (products.data.js). -/
def iph15black : Product :=
  ⟨"iph-15-black", "iPhone 15 Negro", "iphone", some 15, "certificado",
    ["A16 Bionic", "6.1\"", "128GB"],
    ["img/phone/product/iphone_15/iphone_15/iphone_15_black.png",
      "img/phone/product/iphone_15/iphone_15/iphone_15_cream_1.png"],
    "Certificado PSM. El iPhone 15 Negro en condición revisada y garantizada. Pantalla Super Retina XDR con Dynamic Island, chip A16 Bionic y cámara principal de 48 MP.",
    "Hola, me interesa el iPhone 15 Negro certificado"⟩

/-- Seeded product `iph-15-cream` (products.data.js). -/
def iph15cream : Product :=
  ⟨"iph-15-cream", "iPhone 15 Crema", "iphone", some 15, "certificado",
    ["A16 Bionic", "6.1\"", "128GB", "Crema"],
    ["img/phone/product/iphone_15/iphone_15/iphone_15_cream_1.png",
      "img/phone/product/iphone_15/iphone_15/iphone_15_white.png"],
    "Certificado PSM. iPhone 15 en Crema — el tono más elegante de la Serie 15. Revisado, garantizado y listo para estrenar.",
    "Hola, me interesa el iPhone 15 en color Crema"⟩

/-- Seeded product `iph-15-white` (products.data.js). -/
def iph15white : Product :=
  ⟨"iph-15-white", "iPhone 15 Blanco", "iphone", some 15, "certificado",
    ["A16 Bionic", "6.1\"", "128GB", "Blanco"],
    ["img/phone/product/iphone_15/iphone_15/iphone_15_white.png",
      "img/phone/product/iphone_15/iphone_15/iphone_15_cream_1.png"],
    "Certificado PSM. iPhone 15 Blanco con revisión técnica completa. 60 días de garantía PSM incluida.",
    "Hola, me interesa el iPhone 15 en color Blanco"⟩

/-- Seeded product `acc-cargador-40w` (products.data.js). -/
def accCargador40w : Product :=
  ⟨"acc-cargador-40w", "Cargador Apple 40W", "accesorio", none, "nuevo",
    ["Original Apple", "40W", "USB-C"],
    ["img/accesorys/cargador40w/PNG/40w.png"],
    "Cargador original Apple de 40W con conector USB-C. Compatible con iPhone 15 y 16. Carga hasta un 50% en 30 minutos. Incluye cable USB-C.",
    "Hola, me interesa el Cargador Apple 40W"⟩

/-- Seeded product `acc-cable-typec` (products.data.js). -/
def accCableTypec : Product :=
  ⟨"acc-cable-typec", "Cable Anker USB-C", "accesorio", none, "nuevo",
    ["Nylon trenzado", "1 metro", "USB-C a USB-C"],
    ["img/accesorys/cableTypeC/PNG/cabletypec.png"],
    "Cable Anker USB-C a USB-C de nylon trenzado. 1 metro de longitud, soporta carga rápida y transferencia de datos. Compatible con todos los iPhone con puerto USB-C.",
    "Hola, me interesa el Cable Anker USB-C"⟩

/-- Seeded product `acc-airpods-4` (products.data.js). -/
def accAirpods4 : Product :=
  ⟨"acc-airpods-4", "AirPods Serie 4", "accesorio", none, "nuevo",
    ["Original Apple", "ANC activo", "USB-C", "H2 chip"],
    ["img/accesorys/airpods/serie4/PNG/airpods-serie4.png"],
    "AirPods Serie 4 con cancelación activa de ruido. Diseño abierto rediseñado, chip H2, hasta 30 horas de batería total con estuche. Puerto USB-C.",
    "Hola, me interesa los AirPods Serie 4"⟩

/-- Seeded product `rep-camara-frontal-15` (products.data.js). -/
def repCamaraFrontal15 : Product :=
  ⟨"rep-camara-frontal-15", "Cámara Frontal 15 Pro Max", "repuesto", none, "nuevo",
    ["Original Apple", "Serie 13 al 15", "Incluye instalación"],
    ["img/accesorys/camara_iphone_pro_max/iphone_15_pro_max/PNG/camara-accesory-iphone-15-pro-max.png"],
    "Módulo de cámara frontal TrueDepth original para iPhone 13, 14 y 15 Pro Max. Incluye instalación por técnico certificado PSM y garantía de 30 días sobre el trabajo.",
    "Hola, me interesa la Cámara Frontal para mi iPhone"⟩

/-- Seeded product `rep-camara-trasera-14` (products.data.js). -/
def repCamaraTrasera14 : Product :=
  ⟨"rep-camara-trasera-14", "Cámara Trasera Serie 14", "repuesto", none, "nuevo",
    ["Original Apple", "Serie 14 al 16", "Incluye instalación"],
    ["img/accesorys/camara_iphone_pro_max/trasera-iphone_14/PNG/camara-trasera_iphone14.png"],
    "Módulo de cámara trasera original para iPhone 14, 15 y 16. Reemplaza el módulo completo. Instalación por técnico certificado PSM incluida con garantía de 30 días.",
    "Hola, me interesa la Cámara Trasera para mi iPhone"⟩

/-- Seeded product `rep-bateria-15` (products.data.js). -/
def repBateria15 : Product :=
  ⟨"rep-bateria-15", "Batería iPhone 15 Pro Max", "repuesto", none, "nuevo",
    ["Original Apple", "Serie 14 al 16", "Incluye instalación", "100% salud"],
    ["img/accesorys/bateries/PNG/bateries-iphone-15-pro-max.png"],
    "Batería original Apple al 100% de salud para iPhone 14, 15 y 16. El reemplazo devuelve la autonomía original de tu iPhone. Instalación en el día con garantía de 30 días.",
    "Hola, me interesa el reemplazo de Batería para mi iPhone"⟩

/-- `window.PSM.PRODUCTS`: the seeded catalog, in declaration order. -/
def PRODUCTS : List Product :=
  [iph17proMax, iph17,
    iph16proMax, iph16, iph16pink, iph16white,
    iph15proMax, iph15black, iph15cream, iph15white,
    accCargador40w, accCableTypec, accAirpods4,
    repCamaraFrontal15, repCamaraTrasera14, repBateria15]

/-- `window.PSM.findProductById`: `PRODUCTS.find(p => p.id === id)`. -/
def findProductById (id : String) : Option Product :=
  PRODUCTS.find? (fun p => p.id == id)

/-- JS truthiness of a `number|null` value: `null` and `0` are falsy (a
product series is never 0, but the source tests `p.series &&`, not
`p.series !== null`). -/
def numTruthy : Option Int → Bool
  | some n => n != 0
  | none => false

/-- Cap used by `getRelatedProducts` (`MAX_RELATED` in products.data.js). -/
def MAX_RELATED : Nat := 4

/-- `window.PSM.getRelatedProducts`: filters the catalog to every other
product sharing a (truthy) series or the category, then `slice(0, 4)`. -/
def getRelatedProducts (product : Product) : List Product :=
  (PRODUCTS.filter (fun p =>
    p.id != product.id &&
      ((numTruthy p.series && p.series == product.series) ||
        p.category == product.category))).take MAX_RELATED

end PSM

namespace Catalogo

/-- The `filterState` shape of `catalogo.js`: `series` is carried as a raw
string (a pill's `data-filter` value) and coerced with `Number` only inside
the series stage. -/
structure FilterState where
  category : String
  series : String
  condition : String
  search : String
deriving DecidableEq

/-- `filterByCategory` (catalogo.js lines 45-48). -/
def filterByCategory (products : List PSM.Product) (category : String) : List PSM.Product :=
  if category = "all" then products
  else products.filter (fun p => p.category == category)

/-- `filterBySeries` (catalogo.js lines 56-59): compares
`p.series === Number(series)`; `null` on the left or `NaN` (or a
non-integral double) on the right match nothing. -/
def filterBySeries (products : List PSM.Product) (series : String) : List PSM.Product :=
  if series = "all" then products
  else products.filter (fun p =>
    match p.series, PSM.jsNumber series with
    | some a, some b => a == b
    | _, _ => false)

/-- `filterByCondition` (catalogo.js lines 67-70). -/
def filterByCondition (products : List PSM.Product) (condition : String) : List PSM.Product :=
  if condition = "all" then products
  else products.filter (fun p => p.condition == condition)

/-- `filterBySearch` (catalogo.js lines 78-85): passes through when the
trimmed query is empty, else matches the lowercased (untrimmed) query
against the lowercased name or any lowercased spec entry. -/
def filterBySearch (products : List PSM.Product) (query : String) : List PSM.Product :=
  if PSM.jsTrim query = "" then products
  else
    let normalized := PSM.jsToLower query
    products.filter (fun p =>
      PSM.jsIncludes (PSM.jsToLower p.name) normalized ||
        p.specs.any (fun s => PSM.jsIncludes (PSM.jsToLower s) normalized))

/-- The `getFilteredProducts` pipeline applied to an explicit catalog: the
source folds the four stages left-to-right with `reduce` starting from the
global `PRODUCTS`. -/
def applyFilters (catalog : List PSM.Product) (st : FilterState) : List PSM.Product :=
  [fun p => filterByCategory p st.category,
    fun p => filterBySeries p st.series,
    fun p => filterByCondition p st.condition,
    fun p => filterBySearch p st.search].foldl (fun products fn => fn products) catalog

/-- `getFilteredProducts` (catalogo.js lines 92-99), with the module-global
`filterState` made an explicit argument. -/
def getFilteredProducts (st : FilterState) : List PSM.Product :=
  applyFilters PSM.PRODUCTS st

/-- Badge result shape of `resolveBadge`. -/
structure Badge where
  cssClass : String
  label : String
deriving DecidableEq

/-- The `MAP` object literal inside `resolveBadge` (catalogo.js lines
109-114); a key that is not a property yields `undefined`, here `none`. -/
def MAP (key : String) : Option Badge :=
  if key = "nuevo" then some ⟨"catalog-card__badge--new", "Nuevo"⟩
  else if key = "certificado" then some ⟨"catalog-card__badge--certified", "Certificado"⟩
  else if key = "accesorio" then some ⟨"catalog-card__badge--accessory", "Accesorio"⟩
  else if key = "repuesto" then some ⟨"catalog-card__badge--accessory", "Repuesto"⟩
  else none

/-- `resolveBadge` (catalogo.js lines 108-118): non-iPhones dispatch on
category, iPhones on condition. -/
def resolveBadge (product : PSM.Product) : Option Badge :=
  if product.category ≠ "iphone" then MAP product.category
  else MAP product.condition

/-- The filter stage at position `i` of the `getFilteredProducts` pipeline
(0 category, 1 series, 2 condition, everything else search), used to state
order-permutation properties of the pipeline. -/
def stageFn (st : FilterState) (i : Nat) (l : List PSM.Product) : List PSM.Product :=
  match i with
  | 0 => filterByCategory l st.category
  | 1 => filterBySeries l st.series
  | 2 => filterByCondition l st.condition
  | _ => filterBySearch l st.search

/-- The predicate that stage `i` retains, with the sentinel branch as the
constantly-true predicate. -/
def stagePred (st : FilterState) (i : Nat) (p : PSM.Product) : Bool :=
  match i with
  | 0 => if st.category = "all" then true else p.category == st.category
  | 1 =>
    if st.series = "all" then true
    else
      match p.series, PSM.jsNumber st.series with
      | some a, some b => a == b
      | _, _ => false
  | 2 => if st.condition = "all" then true else p.condition == st.condition
  | _ =>
    if PSM.jsTrim st.search = "" then true
    else
      PSM.jsIncludes (PSM.jsToLower p.name) (PSM.jsToLower st.search) ||
        p.specs.any (fun s => PSM.jsIncludes (PSM.jsToLower s) (PSM.jsToLower st.search))

/-- The pipeline run with its stages taken in the order given by `order`. -/
def applyStagesIn (order : List Nat) (st : FilterState) (catalog : List PSM.Product) :
    List PSM.Product :=
  order.foldl (fun acc i => stageFn st i acc) catalog

end Catalogo

namespace Producto

/-- Badge result shape of the product-detail `resolveBadge`. -/
structure Badge where
  cssClass : String
  label : String
deriving DecidableEq

/-- The `MAP` object literal inside the product-detail `resolveBadge`
(producto.js lines 33-38). -/
def MAP (key : String) : Option Badge :=
  if key = "nuevo" then some ⟨"product-detail__badge--nuevo", "Nuevo"⟩
  else if key = "certificado" then some ⟨"product-detail__badge--certificado", "Certificado PSM"⟩
  else if key = "accesorio" then some ⟨"product-detail__badge--accesorio", "Accesorio"⟩
  else if key = "repuesto" then some ⟨"product-detail__badge--repuesto", "Repuesto"⟩
  else none

/-- `resolveBadge` (producto.js lines 32-42): same dispatch as the catalog
page, different CSS classes and a different certified label. -/
def resolveBadge (product : PSM.Product) : Option Badge :=
  if product.category ≠ "iphone" then MAP product.category
  else MAP product.condition

end Producto

namespace RefModel

/-- A JS array value as observed by one filter stage: its elements together
with the identity `ref` of the array object that holds them. Allocation is
tracked by a counter: `Array.prototype.filter` always allocates a fresh
array (the next unused `ref`), while the sentinel branches of the stages
hand back the received array itself. Arrays are immutable values here, and
each stage body only reads its `products` argument (as in the source, which
contains no assignment), so non-mutation of the input holds by
construction; the refutable content is object identity of the result. -/
structure JSArray where
  ref : Nat
  elems : List PSM.Product
deriving DecidableEq

/-- `filterByCategory` with the identity of the returned array tracked. -/
def filterByCategoryRef (next : Nat) (products : JSArray) (category : String) :
    JSArray × Nat :=
  if category = "all" then (products, next)
  else (⟨next, products.elems.filter (fun p => p.category == category)⟩, next + 1)

/-- `filterBySeries` with the identity of the returned array tracked. -/
def filterBySeriesRef (next : Nat) (products : JSArray) (series : String) :
    JSArray × Nat :=
  if series = "all" then (products, next)
  else
    (⟨next, products.elems.filter (fun p =>
      match p.series, PSM.jsNumber series with
      | some a, some b => a == b
      | _, _ => false)⟩, next + 1)

/-- `filterByCondition` with the identity of the returned array tracked. -/
def filterByConditionRef (next : Nat) (products : JSArray) (condition : String) :
    JSArray × Nat :=
  if condition = "all" then (products, next)
  else (⟨next, products.elems.filter (fun p => p.condition == condition)⟩, next + 1)

/-- `filterBySearch` with the identity of the returned array tracked. -/
def filterBySearchRef (next : Nat) (products : JSArray) (query : String) :
    JSArray × Nat :=
  if PSM.jsTrim query = "" then (products, next)
  else
    let normalized := PSM.jsToLower query
    (⟨next, products.elems.filter (fun p =>
      PSM.jsIncludes (PSM.jsToLower p.name) normalized ||
        p.specs.any (fun s => PSM.jsIncludes (PSM.jsToLower s) normalized))⟩, next + 1)

end RefModel

/-! Helper lemmas shared by the claim theorems. -/

/-- A truthy `number|null` value is not `null`. -/
theorem numTruthy_ne_none {o : Option Int} (h : PSM.numTruthy o = true) : o ≠ none := by
  cases o
  · simp [PSM.numTruthy] at h
  · simp

/-- The category stage returns a sublist of its input. -/
theorem filterByCategory_sublist (l : List PSM.Product) (c : String) :
    (Catalogo.filterByCategory l c).Sublist l := by
  unfold Catalogo.filterByCategory
  split
  · exact List.Sublist.refl l
  · exact List.filter_sublist l

/-- The series stage returns a sublist of its input. -/
theorem filterBySeries_sublist (l : List PSM.Product) (s : String) :
    (Catalogo.filterBySeries l s).Sublist l := by
  unfold Catalogo.filterBySeries
  split
  · exact List.Sublist.refl l
  · exact List.filter_sublist l

/-- The condition stage returns a sublist of its input. -/
theorem filterByCondition_sublist (l : List PSM.Product) (c : String) :
    (Catalogo.filterByCondition l c).Sublist l := by
  unfold Catalogo.filterByCondition
  split
  · exact List.Sublist.refl l
  · exact List.filter_sublist l

/-- The search stage returns a sublist of its input. -/
theorem filterBySearch_sublist (l : List PSM.Product) (q : String) :
    (Catalogo.filterBySearch l q).Sublist l := by
  unfold Catalogo.filterBySearch
  split
  · exact List.Sublist.refl l
  · exact List.filter_sublist l

/-- The `reduce` pipeline of `getFilteredProducts`, unfolded to the nested
stage applications. -/
theorem applyFilters_eq (catalog : List PSM.Product) (st : Catalogo.FilterState) :
    Catalogo.applyFilters catalog st =
      Catalogo.filterBySearch
        (Catalogo.filterByCondition
          (Catalogo.filterBySeries
            (Catalogo.filterByCategory catalog st.category) st.series)
          st.condition)
        st.search := rfl

/-- Every filter stage is the `List.filter` of its retained predicate. -/
theorem stageFn_eq_filter (st : Catalogo.FilterState) (i : Nat) (l : List PSM.Product) :
    Catalogo.stageFn st i l = l.filter (Catalogo.stagePred st i) := by
  have hcongr : ∀ (f g : PSM.Product → Bool), (∀ p, f p = g p) →
      List.filter f l = List.filter g l :=
    fun f g hfg => List.filter_congr (fun p _ => hfg p)
  have htrue : ∀ (f : PSM.Product → Bool), (∀ p, f p = true) → l = List.filter f l :=
    fun f hf => ((hcongr f (fun _ => true) hf).trans (List.filter_true l)).symm
  rcases i with _ | _ | _ | i
  · by_cases h : st.category = "all"
    · simp only [Catalogo.stageFn, Catalogo.filterByCategory, if_pos h]
      exact htrue _ (fun p => by simp [Catalogo.stagePred, h])
    · simp only [Catalogo.stageFn, Catalogo.filterByCategory, if_neg h]
      exact hcongr _ _ (fun p => by simp [Catalogo.stagePred, h])
  · by_cases h : st.series = "all"
    · simp only [Catalogo.stageFn, Catalogo.filterBySeries, if_pos h]
      exact htrue _ (fun p => by simp [Catalogo.stagePred, h])
    · simp only [Catalogo.stageFn, Catalogo.filterBySeries, if_neg h]
      exact hcongr _ _ (fun p => by simp [Catalogo.stagePred, h])
  · by_cases h : st.condition = "all"
    · simp only [Catalogo.stageFn, Catalogo.filterByCondition, if_pos h]
      exact htrue _ (fun p => by simp [Catalogo.stagePred, h])
    · simp only [Catalogo.stageFn, Catalogo.filterByCondition, if_neg h]
      exact hcongr _ _ (fun p => by simp [Catalogo.stagePred, h])
  · by_cases h : PSM.jsTrim st.search = ""
    · simp only [Catalogo.stageFn, Catalogo.filterBySearch, if_pos h]
      exact htrue _ (fun p => by simp [Catalogo.stagePred, h])
    · simp only [Catalogo.stageFn, Catalogo.filterBySearch, if_neg h]
      exact hcongr _ _ (fun p => by simp [Catalogo.stagePred, h])

/-- Any two filter stages commute with each other. -/
theorem stageFn_comm (st : Catalogo.FilterState) (i j : Nat) (l : List PSM.Product) :
    Catalogo.stageFn st j (Catalogo.stageFn st i l) =
      Catalogo.stageFn st i (Catalogo.stageFn st j l) := by
  rw [stageFn_eq_filter, stageFn_eq_filter, stageFn_eq_filter, stageFn_eq_filter,
    List.filter_filter, List.filter_filter]
  exact List.filter_congr (fun p _ => Bool.and_comm _ _)

/-! Claim theorems. -/

/-- C1 (counterexample): the data source enumerates 16 product records
(2 of series 17, 4 of series 16, 4 of series 15, 3 accessories, 3 parts),
not the 17 stated by the specification. -/
theorem c1_catalog_count_counterexample :
    PSM.PRODUCTS.length = 16 ∧ PSM.PRODUCTS.length ≠ 17 := by
  exact ⟨rfl, by decide⟩

set_option maxRecDepth 8192 in
/-- C1 (amended): on the seeded catalog — which contains 16 products —
`getFilteredProducts` with the filter state (category `iphone`, series `16`,
condition `all`, empty search) returns exactly the four Series-16 iPhone
records in catalog-declaration order. -/
theorem c1_series16_filter :
    Catalogo.getFilteredProducts ⟨"iphone", "16", "all", ""⟩ =
      [PSM.iph16proMax, PSM.iph16, PSM.iph16pink, PSM.iph16white] ∧
    PSM.PRODUCTS.length = 16 := by
  exact ⟨by decide, rfl⟩

/-- C2 (counterexample): `iph-15-black` is an iPhone with condition
`certificado`, and the product-detail-page `resolveBadge` labels it
`Certificado PSM`, not `Certificado`. -/
theorem c2_certified_label_counterexample :
    PSM.iph15black.category = "iphone" ∧
    PSM.iph15black.condition = "certificado" ∧
    (Producto.resolveBadge PSM.iph15black).map Producto.Badge.label =
      some "Certificado PSM" ∧
    (Producto.resolveBadge PSM.iph15black).map Producto.Badge.label ≠
      some "Certificado" := by
  refine ⟨rfl, rfl, rfl, by decide⟩

/-- C2 (amended): for every product with category `iphone` and condition
`certificado`, the catalog-page `resolveBadge` yields label `Certificado`
while the product-detail-page one yields `Certificado PSM`; for every
product with category `accesorio`, both implementations yield label
`Accesorio`. -/
theorem c2_resolveBadge_labels :
    (∀ p : PSM.Product, p.category = "iphone" → p.condition = "certificado" →
      (Catalogo.resolveBadge p).map Catalogo.Badge.label = some "Certificado" ∧
      (Producto.resolveBadge p).map Producto.Badge.label = some "Certificado PSM") ∧
    (∀ p : PSM.Product, p.category = "accesorio" →
      (Catalogo.resolveBadge p).map Catalogo.Badge.label = some "Accesorio" ∧
      (Producto.resolveBadge p).map Producto.Badge.label = some "Accesorio") := by
  constructor
  · intro p h1 h2
    constructor <;>
      simp [Catalogo.resolveBadge, Producto.resolveBadge, Catalogo.MAP, Producto.MAP, h1, h2]
  · intro p h
    constructor <;>
      simp [Catalogo.resolveBadge, Producto.resolveBadge, Catalogo.MAP, Producto.MAP, h]

/-- C2 (witness): the amended statement evaluated at `iph-15-black` and at
the 40W charger. -/
theorem c2_resolveBadge_labels_witness :
    (Catalogo.resolveBadge PSM.iph15black).map Catalogo.Badge.label =
      some "Certificado" ∧
    (Producto.resolveBadge PSM.accCargador40w).map Producto.Badge.label =
      some "Accesorio" :=
  ⟨(c2_resolveBadge_labels.1 PSM.iph15black rfl rfl).1,
    (c2_resolveBadge_labels.2 PSM.accCargador40w rfl).2⟩

/-- C4 (confirmed): for every product `p`, `getRelatedProducts p` never
includes `p` itself, never exceeds 4 entries, every returned entry shares a
non-null series or the category with `p`, and entries appear as a sublist
of the catalog (catalog order preserved). -/
theorem c4_getRelatedProducts_sound (p : PSM.Product) :
    p ∉ PSM.getRelatedProducts p ∧
    (PSM.getRelatedProducts p).length ≤ 4 ∧
    (∀ e ∈ PSM.getRelatedProducts p,
      (e.series ≠ none ∧ e.series = p.series) ∨ e.category = p.category) ∧
    (PSM.getRelatedProducts p).Sublist PSM.PRODUCTS := by
  refine ⟨?_, ?_, ?_, ?_⟩
  · intro hmem
    have h1 := (List.mem_filter.mp (List.mem_of_mem_take hmem)).2
    simp at h1
  · exact List.length_take_le PSM.MAX_RELATED _
  · intro e he
    have h1 := (List.mem_filter.mp (List.mem_of_mem_take he)).2
    simp only [Bool.and_eq_true, Bool.or_eq_true, beq_iff_eq] at h1
    rcases h1.2 with ⟨ht, he2⟩ | hc
    · exact Or.inl ⟨numTruthy_ne_none ht, he2⟩
    · exact Or.inr hc
  · exact (List.take_sublist _ _).trans (List.filter_sublist _)

set_option maxRecDepth 8192 in
/-- C4 (witness): evaluated at `iph-16`, whose first related entry is
`iph-17-pro-max`, a product sharing the category. -/
theorem c4_getRelatedProducts_sound_witness :
    (PSM.iph17proMax.series ≠ none ∧ PSM.iph17proMax.series = PSM.iph16.series) ∨
      PSM.iph17proMax.category = PSM.iph16.category :=
  (c4_getRelatedProducts_sound PSM.iph16).2.2.1 PSM.iph17proMax (by decide)

/-- C5 (confirmed): for every catalog and every filter state, the filter
pipeline returns a sublist of its input: every output product occurs in the
input, with no higher multiplicity, and `getFilteredProducts` is this very
pipeline on the seeded catalog. -/
theorem c5_applyFilters_sublist (catalog : List PSM.Product) (st : Catalogo.FilterState) :
    (Catalogo.applyFilters catalog st).Sublist catalog ∧
    (∀ p ∈ Catalogo.applyFilters catalog st, p ∈ catalog) ∧
    (∀ p : PSM.Product,
      (Catalogo.applyFilters catalog st).count p ≤ catalog.count p) ∧
    Catalogo.getFilteredProducts st = Catalogo.applyFilters PSM.PRODUCTS st := by
  have hsub : (Catalogo.applyFilters catalog st).Sublist catalog := by
    rw [applyFilters_eq]
    exact ((filterBySearch_sublist _ _).trans
      ((filterByCondition_sublist _ _).trans
        (filterBySeries_sublist _ _))).trans
      (filterByCategory_sublist _ _)
  exact ⟨hsub, fun p hp => hsub.subset hp, fun p => hsub.count_le p, rfl⟩

set_option maxRecDepth 8192 in
/-- C5 (witness): a member of the filtered output on the seeded catalog is a
member of the catalog. -/
theorem c5_applyFilters_sublist_witness : PSM.iph17proMax ∈ PSM.PRODUCTS :=
  (c5_applyFilters_sublist PSM.PRODUCTS ⟨"iphone", "all", "all", ""⟩).2.1
    PSM.iph17proMax (by decide)

/-- C6 (confirmed): running the four filter stages in any permutation of
their order yields the same result as the fixed pipeline order, on every
catalog and filter state. -/
theorem c6_stage_order_irrelevant (catalog : List PSM.Product)
    (st : Catalogo.FilterState) (order : List Nat)
    (h : order.Perm [0, 1, 2, 3]) :
    Catalogo.applyStagesIn order st catalog = Catalogo.applyFilters catalog st := by
  have base : Catalogo.applyStagesIn [0, 1, 2, 3] st catalog =
      Catalogo.applyFilters catalog st := rfl
  rw [← base]
  exact h.foldl_eq' (fun i _ j _ l => stageFn_comm st i j l) catalog

set_option maxRecDepth 8192 in
/-- C6 (witness): the reversed stage order on the seeded catalog at a
concrete filter state. -/
theorem c6_stage_order_irrelevant_witness :
    Catalogo.applyStagesIn [3, 2, 1, 0] ⟨"iphone", "16", "all", ""⟩ PSM.PRODUCTS =
      Catalogo.applyFilters PSM.PRODUCTS ⟨"iphone", "16", "all", ""⟩ :=
  c6_stage_order_irrelevant PSM.PRODUCTS ⟨"iphone", "16", "all", ""⟩ [3, 2, 1, 0]
    (by decide)

set_option maxRecDepth 8192 in
/-- C7 (confirmed): `filterBySearch` passes its input through unchanged when
the query trims to empty, and otherwise retains exactly the products whose
lowercased name or some lowercased spec entry has the lowercased query as a
substring; on the seeded catalog, query `pro` matches `iPhone 15 Pro Max`
and every product whose specs contain `A18 Pro`. -/
theorem c7_filterBySearch_spec :
    (∀ (l : List PSM.Product) (q : String), PSM.jsTrim q = "" →
      Catalogo.filterBySearch l q = l) ∧
    (∀ (l : List PSM.Product) (q : String), PSM.jsTrim q ≠ "" →
      Catalogo.filterBySearch l q = l.filter (fun p =>
        PSM.jsIncludes (PSM.jsToLower p.name) (PSM.jsToLower q) ||
          p.specs.any (fun s => PSM.jsIncludes (PSM.jsToLower s) (PSM.jsToLower q)))) ∧
    PSM.iph15proMax ∈ Catalogo.filterBySearch PSM.PRODUCTS "pro" ∧
    (∀ p ∈ PSM.PRODUCTS, "A18 Pro" ∈ p.specs →
      p ∈ Catalogo.filterBySearch PSM.PRODUCTS "pro") := by
  refine ⟨?_, ?_, by decide, by decide⟩
  · intro l q h
    simp [Catalogo.filterBySearch, h]
  · intro l q h
    simp [Catalogo.filterBySearch, h]

set_option maxRecDepth 8192 in
/-- C7 (witness): the pass-through at a whitespace-only query, and the
`A18 Pro` product retained by query `pro`. -/
theorem c7_filterBySearch_spec_witness :
    Catalogo.filterBySearch PSM.PRODUCTS "   " = PSM.PRODUCTS ∧
    PSM.iph16proMax ∈ Catalogo.filterBySearch PSM.PRODUCTS "pro" :=
  ⟨c7_filterBySearch_spec.1 PSM.PRODUCTS "   " (by decide),
    c7_filterBySearch_spec.2.2.2 PSM.iph16proMax (by decide) (by decide)⟩

/-- C8 (confirmed): for every series selection other than the `all` sentinel
whose `Number` coercion yields no integer (non-numeric, hence `NaN`),
`filterBySeries` on the seeded catalog returns the empty list; the function
is total, so no exception is raised or propagated. -/
theorem c8_malformed_series_empty (s : String) (h1 : s ≠ "all")
    (h2 : PSM.jsNumber s = none) :
    Catalogo.filterBySeries PSM.PRODUCTS s = [] := by
  unfold Catalogo.filterBySeries
  rw [if_neg h1]
  refine List.filter_eq_nil_iff.mpr (fun p _ => ?_)
  rw [h2]
  rcases p.series with _ | a <;> simp

/-- C8 (witness): the non-numeric selection `abc` yields the empty result. -/
theorem c8_malformed_series_empty_witness :
    ("abc" : String) ≠ "all" ∧ PSM.jsNumber "abc" = none ∧
      Catalogo.filterBySeries PSM.PRODUCTS "abc" = [] :=
  ⟨by decide, by decide, c8_malformed_series_empty "abc" (by decide) (by decide)⟩

set_option maxRecDepth 8192 in
/-- C9 (confirmed): looking any catalog product up by its own id returns
that very product, and looking up an id matching no product returns `none`,
an explicit absence value (the function is total — it cannot raise). -/
theorem c9_findProductById_roundtrip :
    (∀ p ∈ PSM.PRODUCTS, PSM.findProductById p.id = some p) ∧
    PSM.findProductById "nonexistent-id" = none := by
  exact ⟨by decide, by decide⟩

set_option maxRecDepth 8192 in
/-- C9 (witness): the round-trip at `iph-16` and the absent id. -/
theorem c9_findProductById_roundtrip_witness :
    PSM.findProductById "iph-16" = some PSM.iph16 ∧
      PSM.findProductById "nonexistent-id" = none :=
  ⟨c9_findProductById_roundtrip.1 PSM.iph16 (by decide),
    c9_findProductById_roundtrip.2⟩

set_option maxRecDepth 8192 in
/-- C10 (confirmed): the search stage matches the lowercased query without
trimming it — trimming only decides the empty-query pass-through; on the
seeded catalog the query `max ` (trailing space) matches nothing, though
`max` does. -/
theorem c10_search_untrimmed :
    (∀ (l : List PSM.Product) (q : String),
      Catalogo.filterBySearch l q =
        if PSM.jsTrim q = "" then l
        else l.filter (fun p =>
          PSM.jsIncludes (PSM.jsToLower p.name) (PSM.jsToLower q) ||
            p.specs.any (fun s => PSM.jsIncludes (PSM.jsToLower s) (PSM.jsToLower q)))) ∧
    PSM.jsTrim "max " ≠ "" ∧
    Catalogo.filterBySearch PSM.PRODUCTS "max " = [] ∧
    Catalogo.filterBySearch PSM.PRODUCTS "max" ≠ [] := by
  refine ⟨fun l q => rfl, by decide, by decide, by decide⟩

/-- C3 (counterexample): at the `all` sentinel (blank query, for search),
each filter stage returns the very input array — reference 0 — and not a
fresh sequence. -/
theorem c3_sentinel_returns_input_counterexample :
    (RefModel.filterByCategoryRef 1 ⟨0, PSM.PRODUCTS⟩ "all").1 = ⟨0, PSM.PRODUCTS⟩ ∧
    (RefModel.filterBySeriesRef 1 ⟨0, PSM.PRODUCTS⟩ "all").1 = ⟨0, PSM.PRODUCTS⟩ ∧
    (RefModel.filterByConditionRef 1 ⟨0, PSM.PRODUCTS⟩ "all").1 = ⟨0, PSM.PRODUCTS⟩ ∧
    (RefModel.filterBySearchRef 1 ⟨0, PSM.PRODUCTS⟩ "").1 = ⟨0, PSM.PRODUCTS⟩ :=
  ⟨rfl, rfl, rfl, rfl⟩

/-- C3 (amended): each stage is a state-free function of its arguments over
immutable array values (pure, input unmutated); on the `all` sentinel
(whitespace-only query, for search) it returns the input array itself
without allocating; otherwise it returns a freshly allocated array —
distinct from the input whenever the input was allocated earlier — holding
the filtered elements of the input. -/
theorem c3_stage_freshness (next : Nat) (arr : RefModel.JSArray) (sel : String) :
    (sel = "all" →
      RefModel.filterByCategoryRef next arr sel = (arr, next) ∧
      RefModel.filterBySeriesRef next arr sel = (arr, next) ∧
      RefModel.filterByConditionRef next arr sel = (arr, next)) ∧
    (PSM.jsTrim sel = "" →
      RefModel.filterBySearchRef next arr sel = (arr, next)) ∧
    (sel ≠ "all" →
      RefModel.filterByCategoryRef next arr sel =
        (⟨next, arr.elems.filter (fun p => p.category == sel)⟩, next + 1) ∧
      RefModel.filterBySeriesRef next arr sel =
        (⟨next, arr.elems.filter (fun p =>
          match p.series, PSM.jsNumber sel with
          | some a, some b => a == b
          | _, _ => false)⟩, next + 1) ∧
      RefModel.filterByConditionRef next arr sel =
        (⟨next, arr.elems.filter (fun p => p.condition == sel)⟩, next + 1) ∧
      (arr.ref < next →
        (RefModel.filterByCategoryRef next arr sel).1 ≠ arr ∧
        (RefModel.filterBySeriesRef next arr sel).1 ≠ arr ∧
        (RefModel.filterByConditionRef next arr sel).1 ≠ arr)) ∧
    (PSM.jsTrim sel ≠ "" →
      RefModel.filterBySearchRef next arr sel =
        (⟨next, arr.elems.filter (fun p =>
          PSM.jsIncludes (PSM.jsToLower p.name) (PSM.jsToLower sel) ||
            p.specs.any (fun s => PSM.jsIncludes (PSM.jsToLower s) (PSM.jsToLower sel)))⟩,
          next + 1) ∧
      (arr.ref < next → (RefModel.filterBySearchRef next arr sel).1 ≠ arr)) := by
  have hne : arr.ref < next → ∀ elems : List PSM.Product,
      (⟨next, elems⟩ : RefModel.JSArray) ≠ arr := by
    intro hlt elems heq
    have h2 : next = arr.ref := congrArg RefModel.JSArray.ref heq
    omega
  refine ⟨?_, ?_, ?_, ?_⟩
  · intro h
    exact ⟨by simp [RefModel.filterByCategoryRef, h],
      by simp [RefModel.filterBySeriesRef, h],
      by simp [RefModel.filterByConditionRef, h]⟩
  · intro h
    simp [RefModel.filterBySearchRef, h]
  · intro h
    refine ⟨by simp [RefModel.filterByCategoryRef, h],
      by simp [RefModel.filterBySeriesRef, h],
      by simp [RefModel.filterByConditionRef, h], ?_⟩
    intro hlt
    refine ⟨?_, ?_, ?_⟩ <;>
      simp only [RefModel.filterByCategoryRef, RefModel.filterBySeriesRef,
        RefModel.filterByConditionRef, if_neg h] <;>
      exact hne hlt _
  · intro h
    refine ⟨by simp [RefModel.filterBySearchRef, h], ?_⟩
    intro hlt
    simp only [RefModel.filterBySearchRef, if_neg h]
    exact hne hlt _

/-- C3 (witness): the sentinel hands back the input array; a concrete
selection allocates a fresh array distinct from the input. -/
theorem c3_stage_freshness_witness :
    RefModel.filterBySeriesRef 5 ⟨0, PSM.PRODUCTS⟩ "all" = (⟨0, PSM.PRODUCTS⟩, 5) ∧
      (RefModel.filterByCategoryRef 1 ⟨0, PSM.PRODUCTS⟩ "iphone").1 ≠
        ⟨0, PSM.PRODUCTS⟩ :=
  ⟨((c3_stage_freshness 5 ⟨0, PSM.PRODUCTS⟩ "all").1 rfl).2.1,
    (((c3_stage_freshness 1 ⟨0, PSM.PRODUCTS⟩ "iphone").2.2.1 (by decide)).2.2.2
      (by decide)).1⟩
